import Mathlib

/-!
Shallow embedding of the `kubectl-helper` repository's `ip` command
(package `cmd`, files `cmd/ip.go` and `cmd/myexec.go`).

The repository contains two alternative implementations of the same `ip`
command in `cmd/ip.go`:

* the *unstructured* variant (`runFunc`, `convertObjectToPodInfo`,
  `printColoredTable`): builds a `resource.Builder`, visits pod objects as
  untyped maps, filters pod names by a case-insensitive substring match
  against the positional `SEARCH_PATTERN`, and supports the
  `-n, --namespace` flag (specific namespace vs. all namespaces);

* the *typed-client* variant (`getPodAndNodeInfo`, `printPodInfo`): lists
  pods of the fixed namespace `default` and all nodes with a typed client,
  builds a node-name → internal-IP map, and joins pods against it.

Both are embedded below, in namespaces `Unstructured` and `Typed`.
Go-specific behaviours are made explicit: a comma-ok type assertion
becomes an `Option`-valued accessor with `.getD ""` for the zero value, an
unchecked type assertion becomes a `panicked` outcome, and the cluster
calls become `Except`-valued inputs so that listing failures are explicit.
-/

/-- Model of Go `strings.ToLower` (per-character lowercasing), written on
the character list so that it evaluates by kernel reduction. -/
def goToLower (s : String) : String := ⟨s.data.map Char.toLower⟩

/-- Helper for `goContains`: does `p` occur as a contiguous run in `s`?
Recursion on `s`, checking a prefix match at every position. -/
def containsAux (p : List Char) : List Char → Bool
  | [] => p.isPrefixOf []
  | c :: rest => p.isPrefixOf (c :: rest) || containsAux p rest

/-- Model of Go `strings.Contains s pat`: `pat` is a substring of `s`.
In particular the empty pattern is contained in every string. -/
def goContains (s pat : String) : Bool := containsAux pat.data s.data

namespace Unstructured

/-- A dynamically typed value, modelling Go `interface\x7b\x7d` contents of an
`unstructured.Unstructured` object: a string, a nested map, or any other
JSON value (number, list, bool, ...), whose shape is irrelevant here. -/
inductive DynVal where
  | vstr (s : String) : DynVal
  | vmap (fields : List (String × DynVal)) : DynVal
  | vother : DynVal

/-- Go map read `m[k]`: `none` models the `nil` interface value returned
for an absent key. -/
def dynLookup (fields : List (String × DynVal)) (k : String) : Option DynVal :=
  List.lookup k fields

/-- Comma-ok map assertion `v, ok := x.(map[string]interface\x7b\x7d)`. -/
def asMap : Option DynVal → Option (List (String × DynVal))
  | some (DynVal.vmap m) => some m
  | _ => none

/-- Comma-ok string assertion `s, ok := x.(string)`; `none` stands for
`ok = false` (in which case Go yields the zero value `""`). An unchecked
assertion `x.(string)` panics exactly when this returns `none`. -/
def asStringOk : Option DynVal → Option String
  | some (DynVal.vstr s) => some s
  | _ => none

/-- `PodInfo` of the unstructured variant (`cmd/ip.go`, first version). -/
structure PodInfo where
  Name : String
  Namespace : String
  IP : String
  NodeName : String
  NodeIP : String
deriving DecidableEq

/-- An unstructured pod object: its top-level field map
(`unstructuredObj.Object`). -/
structure UnstructuredObj where
  fields : List (String × DynVal)

/-- `unstructuredObj.GetName()` / `GetNamespace()`: read `metadata.<k>` as
a string, with `""` when absent or not a string. -/
def getMetaString (obj : UnstructuredObj) (k : String) : String :=
  match asMap (dynLookup obj.fields "metadata") with
  | some m => (asStringOk (dynLookup m k)).getD ""
  | none => ""

/-- Outcome of `convertObjectToPodInfo`: a `PodInfo`, a returned Go error
(the caller skips the record), or a run-time panic from an unchecked type
assertion (aborts the whole process). -/
inductive ConvOutcome where
  | ok (info : PodInfo) : ConvOutcome
  | err (msg : String) : ConvOutcome
  | panicked : ConvOutcome
deriving DecidableEq

/-- Embedding of `convertObjectToPodInfo` (cmd/ip.go lines 113-153).
`spec` and `status` are read with comma-ok map assertions and their
absence is a returned error; `status["podIP"]` is read with a comma-ok
string assertion defaulting to `""`; but `spec["nodeName"]` and
`status["hostIP"]` are read with *unchecked* assertions `.(string)` that
panic when the field is absent or not a string. -/
def convertObjectToPodInfo (obj : UnstructuredObj) : ConvOutcome :=
  match asMap (dynLookup obj.fields "spec"), asMap (dynLookup obj.fields "status") with
  | some spec, some status =>
    let podName := getMetaString obj "name"
    let podNamespace := getMetaString obj "namespace"
    let podIP := (asStringOk (dynLookup status "podIP")).getD ""
    match asStringOk (dynLookup spec "nodeName") with
    | none => ConvOutcome.panicked
    | some nodeName =>
      match asStringOk (dynLookup status "hostIP") with
      | none => ConvOutcome.panicked
      | some hostIP =>
        ConvOutcome.ok ⟨podName, podNamespace, podIP, nodeName, hostIP⟩
  | _, _ => ConvOutcome.err "object does not contain spec or status in expected format"

/-- The successfully converted record of an object, if any. -/
def convOk (obj : UnstructuredObj) : Option PodInfo :=
  match convertObjectToPodInfo obj with
  | ConvOutcome.ok info => some info
  | _ => none

/-- The filter of `runFunc` (cmd/ip.go line 93):
`strings.Contains(strings.ToLower(podInfo.Name), strings.ToLower(searchTerm))`. -/
def matchesSearch (info : PodInfo) (searchTerm : String) : Bool :=
  goContains (goToLower info.Name) (goToLower searchTerm)

/-- The `Visit` loop of `runFunc` (cmd/ip.go lines 83-97): convert each
object, skip objects whose conversion returns an error, keep converted
records whose name matches the search term, in visit order. `none` models
a panic escaping the loop (from an unchecked assertion in the converter). -/
def visitPods : List UnstructuredObj → String → Option (List PodInfo)
  | [], _ => some []
  | obj :: rest, searchTerm =>
    match convertObjectToPodInfo obj with
    | ConvOutcome.panicked => none
    | ConvOutcome.err _ => visitPods rest searchTerm
    | ConvOutcome.ok info =>
      match visitPods rest searchTerm with
      | none => none
      | some pods =>
        some (if matchesSearch info searchTerm then info :: pods else pods)

/-- Namespace scope of the pod enumeration (cmd/ip.go lines 63-79):
either one namespace (`NamespaceParam`) or all (`AllNamespaces(true)`). -/
inductive Scope where
  | oneNamespace (ns : String) : Scope
  | allNamespaces : Scope
deriving DecidableEq

/-- The builder choice in `runFunc`: `if namespaceFlag != ""` use
`NamespaceParam(namespaceFlag)`, else `AllNamespaces(true)`. -/
def selectScope (namespaceFlag : String) : Scope :=
  if namespaceFlag ≠ "" then Scope.oneNamespace namespaceFlag
  else Scope.allNamespaces

/-- The usage error returned by `runFunc` when no positional argument is
given (cmd/ip.go lines 51-53). -/
def usageMessage : String :=
  "please provide a search pattern, for example:\n  ./api-deneme ip nginx\nor:\n  ./api-deneme ip -n dev nginx"

/-- Observable outcome of one execution of the unstructured `ip` command. -/
inductive RunOutcome where
  | usageError (msg : String) : RunOutcome
  | listError (msg : String) : RunOutcome
  | panicked : RunOutcome
  | noMatches (msg : String) : RunOutcome
  | table (pods : List PodInfo) : RunOutcome
deriving DecidableEq

/-- Exit status of the process for each outcome: `RootCmd.Execute` prints
a returned error and calls `os.Exit(1)`; a Go panic exits with status 2;
otherwise the process exits 0. -/
def RunOutcome.exitCode : RunOutcome → Nat
  | RunOutcome.usageError _ => 1
  | RunOutcome.listError _ => 1
  | RunOutcome.panicked => 2
  | RunOutcome.noMatches _ => 0
  | RunOutcome.table _ => 0

/-- Is the outcome the usage (missing argument) rejection? -/
def RunOutcome.isUsageError : RunOutcome → Bool
  | RunOutcome.usageError _ => true
  | _ => false

/-- Embedding of `runFunc` (cmd/ip.go lines 49-110). `args` are the
positional arguments; `listing` is the result of the pod enumeration that
the `resource.Builder` visit performs (an `Except` so that a failing
listing is explicit). The argument check `len(args) < 1` happens before
the enumeration, so a `usageError` is produced whatever `listing` is. -/
def runFunc (args : List String) (listing : Except String (List UnstructuredObj)) :
    RunOutcome :=
  match args with
  | [] => RunOutcome.usageError usageMessage
  | searchTerm :: _ =>
    match listing with
    | Except.error e => RunOutcome.listError ("failed to retrieve pods: " ++ e)
    | Except.ok objs =>
      match visitPods objs searchTerm with
      | none => RunOutcome.panicked
      | some matchingPods =>
        if matchingPods.length == 0 then
          RunOutcome.noMatches ("No pods found matching the pattern: " ++ searchTerm)
        else RunOutcome.table matchingPods

end Unstructured

namespace Typed

/-- One typed node address (`corev1.NodeAddress`): a type tag such as
`"InternalIP"` and the address itself. -/
structure NodeAddress where
  addrType : String
  address : String
deriving DecidableEq

/-- `corev1.NodeStatus`, restricted to the field the code reads. -/
structure NodeStatus where
  addresses : List NodeAddress
deriving DecidableEq

/-- A typed node (`corev1.Node`), restricted to the fields the code reads. -/
structure Node where
  name : String
  status : NodeStatus
deriving DecidableEq

/-- `corev1.PodSpec`, restricted to the field the code reads. -/
structure PodSpec where
  nodeName : String
deriving DecidableEq

/-- `corev1.PodStatus`, restricted to the field the code reads. -/
structure PodStatus where
  podIP : String
deriving DecidableEq

/-- A typed pod (`corev1.Pod`), restricted to the fields the code reads. -/
structure Pod where
  name : String
  spec : PodSpec
  status : PodStatus
deriving DecidableEq

/-- `PodInfo` of the typed-client variant (second version of cmd/ip.go;
it has no `Namespace` field). -/
structure PodInfo where
  Name : String
  IP : String
  NodeName : String
  NodeIP : String
deriving DecidableEq

/-- The inner loop over `node.Status.Addresses` (cmd/ip.go, second
version): the first address whose `Type` is `"InternalIP"`, by list order
(the loop `break`s at the first hit). -/
def firstInternalIP (addrs : List NodeAddress) : Option String :=
  (addrs.find? (fun addr => addr.addrType == "InternalIP")).map (fun addr => addr.address)

/-- One iteration of the node loop: insert `node.Name → first internal
IP` into the map when such an address exists, else leave the map alone. -/
def nodeIPStep (m : List (String × String)) (node : Node) : List (String × String) :=
  match firstInternalIP node.status.addresses with
  | some ip => (node.name, ip) :: m
  | none => m

/-- The `nodeIPMap` construction: one entry per node that has an
`"InternalIP"`-typed address. A later node with the same name overwrites
an earlier one, as in a Go map; lookups use `List.lookup`, which finds the
most recently prepended binding. -/
def buildNodeIPMap (nodes : List Node) : List (String × String) :=
  nodes.foldl nodeIPStep []

/-- The pod loop of `getPodAndNodeInfo`: pods with an empty `PodIP` are
skipped (`continue`); otherwise a record is built whose `NodeIP` is the
map entry for the pod's node name when present, else the zero value `""`. -/
def joinPodNodeInfo (pods : List Pod) (nodeIPMap : List (String × String)) :
    List PodInfo :=
  pods.filterMap
    (fun pod =>
      if pod.status.podIP == "" then none
      else
        some
          { Name := pod.name
            IP := pod.status.podIP
            NodeName := pod.spec.nodeName
            NodeIP := (List.lookup pod.spec.nodeName nodeIPMap).getD "" })

/-- The namespace the typed-client variant always lists pods from:
`clientset.CoreV1().Pods("default")`. This variant defines no namespace
flag. -/
def listNamespace : String := "default"

/-- Embedding of `getPodAndNodeInfo` (second version of cmd/ip.go): the
pod listing and the node listing are inputs; each failure is wrapped with
a step-identifying message, the node listing is only consulted after the
pod listing succeeded, and on success the joined records are returned. -/
def getPodAndNodeInfo (podsResult : Except String (List Pod))
    (nodesResult : Except String (List Node)) : Except String (List PodInfo) :=
  match podsResult with
  | Except.error e => Except.error ("error listing pods: " ++ e)
  | Except.ok pods =>
    match nodesResult with
    | Except.error e => Except.error ("error listing nodes: " ++ e)
    | Except.ok nodes => Except.ok (joinPodNodeInfo pods (buildNodeIPMap nodes))

/-- Observable outcome of the typed-client `ip` command's `Run`. -/
inductive RunOutcome where
  | errorExit (msg : String) : RunOutcome
  | printed (infos : List PodInfo) : RunOutcome
deriving DecidableEq

/-- The `Run` closure of the typed-client `ipCmd`: on error, print
`Error connecting to Kubernetes cluster: ...` and `os.Exit(1)`; otherwise
print the table via `printPodInfo`. -/
def runIp (result : Except String (List PodInfo)) : RunOutcome :=
  match result with
  | Except.error e => RunOutcome.errorExit ("Error connecting to Kubernetes cluster: " ++ e)
  | Except.ok infos => RunOutcome.printed infos

/-- Exit status: `os.Exit(1)` on the error branch, 0 otherwise. -/
def RunOutcome.exitCode : RunOutcome → Nat
  | RunOutcome.errorExit _ => 1
  | RunOutcome.printed _ => 0

end Typed

/-!
Concrete fixtures and shared lemmas used to settle the claims.
-/

/-- Build a well-formed unstructured pod object: metadata with name and
namespace, a spec with a string node name, and a status with a string
host IP and, optionally, a string pod IP. -/
def mkPodObj (name ns : String) (podIP : Option String) (nodeName hostIP : String) :
    Unstructured.UnstructuredObj :=
  ⟨[("metadata", Unstructured.DynVal.vmap
      [("name", Unstructured.DynVal.vstr name),
       ("namespace", Unstructured.DynVal.vstr ns)]),
    ("spec", Unstructured.DynVal.vmap
      [("nodeName", Unstructured.DynVal.vstr nodeName)]),
    ("status", Unstructured.DynVal.vmap
      ((match podIP with
        | some ip => [("podIP", Unstructured.DynVal.vstr ip)]
        | none => []) ++
       [("hostIP", Unstructured.DynVal.vstr hostIP)]))]⟩

/-- A well-formed scheduled pod object. -/
def nginxObj : Unstructured.UnstructuredObj :=
  mkPodObj "nginx-abc" "default" (some "10.1.1.5") "node1" "10.0.0.1"

/-- A second well-formed scheduled pod object. -/
def redisObj : Unstructured.UnstructuredObj :=
  mkPodObj "redis-1" "prod" (some "10.1.2.3") "node2" "10.0.0.2"

/-- An unscheduled pod object: well-formed `spec` and `status` maps, but
no `nodeName` and no `hostIP` key (the API server omits empty fields). -/
def pendingPodObj : Unstructured.UnstructuredObj :=
  ⟨[("metadata", Unstructured.DynVal.vmap
      [("name", Unstructured.DynVal.vstr "pending-pod"),
       ("namespace", Unstructured.DynVal.vstr "default")]),
    ("spec", Unstructured.DynVal.vmap []),
    ("status", Unstructured.DynVal.vmap [])]⟩

/-- A malformed object with no `status` section at all. -/
def noStatusObj : Unstructured.UnstructuredObj :=
  ⟨[("metadata", Unstructured.DynVal.vmap
      [("name", Unstructured.DynVal.vstr "nginx-broken")]),
    ("spec", Unstructured.DynVal.vmap
      [("nodeName", Unstructured.DynVal.vstr "node1")])]⟩

/-- A node named `h1` whose only address is the internal `10.0.0.1`. -/
def h1node : Typed.Node := ⟨"h1", ⟨[⟨"InternalIP", "10.0.0.1"⟩]⟩⟩

/-- A node named `h2` whose only address is the internal `10.0.0.2`. -/
def h2node : Typed.Node := ⟨"h2", ⟨[⟨"InternalIP", "10.0.0.2"⟩]⟩⟩

/-- A typed pod bound to node `h1`, with an assigned pod IP. -/
def app1Pod : Typed.Pod := ⟨"app-1", ⟨"h1"⟩, ⟨"10.244.0.7"⟩⟩

/-- A typed pod with no assigned pod IP (`PodIP` is the empty string). -/
def pendingTypedPod : Typed.Pod := ⟨"pending-pod", ⟨"h1"⟩, ⟨""⟩⟩

/-- Model of the enumeration contract of the black-box cluster client: a
cluster is a list of (namespace, object) pairs, and the builder visits,
in cluster order, exactly the objects of the selected namespace
(`NamespaceParam`) or all objects (`AllNamespaces`). -/
def Unstructured.enumeratePods (cluster : List (String × Unstructured.UnstructuredObj)) :
    Unstructured.Scope → List Unstructured.UnstructuredObj
  | Unstructured.Scope.oneNamespace ns =>
    (cluster.filter (fun e => e.1 == ns)).map (fun e => e.2)
  | Unstructured.Scope.allNamespaces => cluster.map (fun e => e.2)

namespace Unstructured

/-- The structural well-formedness test of `convertObjectToPodInfo`: does
the object lack a `spec` or a `status` map (`!specOK || !statusOK`)? -/
def lacksSpecOrStatus (obj : UnstructuredObj) : Bool :=
  !(asMap (dynLookup obj.fields "spec")).isSome ||
    !(asMap (dynLookup obj.fields "status")).isSome

theorem convOk_of_err {obj : UnstructuredObj} {m : String}
    (hc : convertObjectToPodInfo obj = ConvOutcome.err m) : convOk obj = none := by
  simp [convOk, hc]

theorem convOk_of_ok {obj : UnstructuredObj} {info : PodInfo}
    (hc : convertObjectToPodInfo obj = ConvOutcome.ok info) : convOk obj = some info := by
  simp [convOk, hc]

theorem convert_of_lacks {obj : UnstructuredObj} (h : lacksSpecOrStatus obj = true) :
    convertObjectToPodInfo obj =
      ConvOutcome.err "object does not contain spec or status in expected format" := by
  unfold lacksSpecOrStatus at h
  unfold convertObjectToPodInfo
  cases hs : asMap (dynLookup obj.fields "spec") with
  | none => rfl
  | some spec =>
    cases ht : asMap (dynLookup obj.fields "status") with
    | none => rfl
    | some status => simp [hs, ht] at h

/-- The visit loop is the match filter over the successfully converted
records, provided no conversion panics. -/
theorem visitPods_eq_filter (objs : List UnstructuredObj) (p : String)
    (h : ∀ o ∈ objs, convertObjectToPodInfo o ≠ ConvOutcome.panicked) :
    visitPods objs p =
      some ((objs.filterMap convOk).filter (fun info => matchesSearch info p)) := by
  induction objs with
  | nil => rfl
  | cons obj rest ih =>
    have hobj : convertObjectToPodInfo obj ≠ ConvOutcome.panicked :=
      h obj (List.mem_cons_self obj rest)
    have ih2 := ih (fun o ho => h o (List.mem_cons_of_mem obj ho))
    cases hc : convertObjectToPodInfo obj with
    | panicked => exact absurd hc hobj
    | err m =>
      simp only [visitPods, hc, List.filterMap_cons, convOk_of_err hc]
      exact ih2
    | ok info =>
      cases hm : matchesSearch info p <;>
        simp [visitPods, hc, ih2, List.filterMap_cons, convOk_of_ok hc,
          List.filter_cons, hm]

/-- `strings.Contains s ""` is `true` for every `s`. -/
theorem goContains_empty_pat (s : String) : goContains s "" = true := by
  show containsAux [] s.data = true
  cases s.data <;> rfl

/-- The empty search term matches every record. -/
theorem matchesSearch_empty (info : PodInfo) : matchesSearch info "" = true := by
  unfold matchesSearch
  rw [show goToLower "" = "" from rfl]
  exact goContains_empty_pat _

/-- `runFunc` with a present (possibly empty) first argument never takes
the usage-error branch. -/
theorem runFunc_arg_not_usage (searchTerm : String) (rest : List String)
    (listing : Except String (List UnstructuredObj)) :
    (runFunc (searchTerm :: rest) listing).isUsageError = false := by
  cases listing with
  | error e => rfl
  | ok objs =>
    show (match visitPods objs searchTerm with
      | none => RunOutcome.panicked
      | some matchingPods =>
        if matchingPods.length == 0 then
          RunOutcome.noMatches ("No pods found matching the pattern: " ++ searchTerm)
        else RunOutcome.table matchingPods).isUsageError = false
    cases visitPods objs searchTerm with
    | none => rfl
    | some matchingPods =>
      cases hl : matchingPods.length == 0 with
      | false => simp only [hl, if_neg Bool.false_ne_true]; rfl
      | true => simp only [hl, if_pos rfl]; rfl

/-- Lookups in the folded node-IP map come from some node of the list
whose first internal IP is the looked-up address (or were already in the
accumulator). -/
theorem Typed.lookup_nodeIPStep_fold (nodes : List Typed.Node)
    (acc : List (String × String)) (name ip : String)
    (h : List.lookup name (nodes.foldl Typed.nodeIPStep acc) = some ip) :
    (∃ node, node ∈ nodes ∧ node.name = name ∧
      Typed.firstInternalIP node.status.addresses = some ip) ∨
    List.lookup name acc = some ip := by
  induction nodes generalizing acc with
  | nil => right; exact h
  | cons node rest ih =>
    rcases ih (Typed.nodeIPStep acc node) h with hex | hacc
    · obtain ⟨n, hn, hname, hip⟩ := hex
      exact Or.inl ⟨n, List.mem_cons_of_mem _ hn, hname, hip⟩
    · unfold Typed.nodeIPStep at hacc
      cases hfi : Typed.firstInternalIP node.status.addresses with
      | none => rw [hfi] at hacc; right; exact hacc
      | some ip0 =>
        rw [hfi] at hacc
        cases hn : name == node.name with
        | true =>
          left
          have hip : ip0 = ip := by simpa [List.lookup, hn] using hacc
          exact ⟨node, List.mem_cons_self _ _, (eq_of_beq hn).symm, hip ▸ hfi⟩
        | false =>
          right
          simpa [List.lookup, hn] using hacc

/-- Claim C1: for a fixed enumerated object list (in which every object
converts without panicking) and any pattern, a converted record appears in
the resulting match list if and only if it is a converted record of the
input and the lowercase form of its name contains the lowercase form of
the pattern as a substring. -/
theorem podFilter_membership_iff (objs : List Unstructured.UnstructuredObj)
    (searchTerm : String)
    (h : ∀ o ∈ objs,
      Unstructured.convertObjectToPodInfo o ≠ Unstructured.ConvOutcome.panicked) :
    ∃ matchingPods,
      Unstructured.visitPods objs searchTerm = some matchingPods ∧
      ∀ info, info ∈ matchingPods ↔
        (info ∈ objs.filterMap Unstructured.convOk ∧
          goContains (goToLower info.Name) (goToLower searchTerm) = true) := by
  refine ⟨_, Unstructured.visitPods_eq_filter objs searchTerm h, ?_⟩
  intro info
  rw [List.mem_filter]
  exact Iff.rfl

/-- Witness for C1 on a two-object list and the pattern `NGI`. -/
theorem podFilter_membership_iff_witness :
    ∃ matchingPods,
      Unstructured.visitPods [nginxObj, redisObj] "NGI" = some matchingPods ∧
      ∀ info, info ∈ matchingPods ↔
        (info ∈ [nginxObj, redisObj].filterMap Unstructured.convOk ∧
          goContains (goToLower info.Name) (goToLower "NGI") = true) :=
  podFilter_membership_iff [nginxObj, redisObj] "NGI" (by decide)

/-- Claim C2, evaluated at the failing input: an unscheduled pod object
(well-formed `spec` and `status` maps, but no `nodeName` and no `hostIP`
key) makes `convertObjectToPodInfo` hit the unchecked type assertion
`spec["nodeName"].(string)` and panic, so the whole command aborts instead
of returning the record with empty host fields. -/
theorem convert_panics_on_unscheduled_pod :
    Unstructured.convertObjectToPodInfo pendingPodObj =
      Unstructured.ConvOutcome.panicked ∧
    Unstructured.visitPods [pendingPodObj] "pending" = none ∧
    Unstructured.runFunc ["pending"] (Except.ok [pendingPodObj]) =
      Unstructured.RunOutcome.panicked ∧
    (Unstructured.runFunc ["pending"] (Except.ok [pendingPodObj])).exitCode = 2 :=
  ⟨rfl, rfl, rfl, rfl⟩

/-- Counterexample to claim C3: the empty-string pattern is not rejected.
With `args = [""]` the argument check (which only detects a missing
positional argument) passes, the enumeration result is consumed, and a
full table is printed. -/
theorem emptyPattern_not_rejected_cex :
    (Unstructured.runFunc [""] (Except.ok [nginxObj])).isUsageError = false ∧
    Unstructured.runFunc [""] (Except.ok [nginxObj]) =
      Unstructured.RunOutcome.table
        [⟨"nginx-abc", "default", "10.1.1.5", "node1", "10.0.0.1"⟩] :=
  ⟨rfl, rfl⟩

/-- Claim C3 as amended: only a *missing* pattern argument is rejected as
a usage error before any query result is consumed (the rejection is the
same whatever the listing would return); an empty-string pattern passes
the argument check and is never a usage error. -/
theorem argCheck_rejects_only_missing_pattern :
    (∀ listing, Unstructured.runFunc [] listing =
      Unstructured.RunOutcome.usageError Unstructured.usageMessage) ∧
    (∀ listing, (Unstructured.runFunc [""] listing).isUsageError = false) := by
  constructor
  · intro listing; rfl
  · intro listing; exact Unstructured.runFunc_arg_not_usage "" [] listing

/-- Witness for the amended C3 at a concrete listing. -/
theorem argCheck_rejects_only_missing_pattern_witness :
    Unstructured.runFunc [] (Except.ok [nginxObj]) =
      Unstructured.RunOutcome.usageError Unstructured.usageMessage ∧
    (Unstructured.runFunc [""] (Except.error "boom")).isUsageError = false :=
  ⟨argCheck_rejects_only_missing_pattern.1 (Except.ok [nginxObj]),
    argCheck_rejects_only_missing_pattern.2 (Except.error "boom")⟩

/-- Counterexample to claim C4: in the typed-client variant, a pod whose
`PodIP` is empty is skipped (`continue`), so no record for it is returned
at all. -/
theorem typed_join_drops_emptyIP_cex :
    Typed.getPodAndNodeInfo (Except.ok [pendingTypedPod])
      (Except.ok [h1node, h2node]) = Except.ok [] ∧
    Typed.joinPodNodeInfo [pendingTypedPod] (Typed.buildNodeIPMap [h1node, h2node]) =
      [] :=
  ⟨rfl, rfl⟩

/-- Claim C4 as amended: in the unstructured variant an instance whose
status lacks a pod IP converts to a record whose instance IP is the empty
string (not an error, not a skipped record); the typed-client variant,
however, skips every pod whose pod IP is empty, so its result is the join
of only the pods with a non-empty pod IP. -/
theorem emptyIP_handling_by_variant :
    (∀ name ns nodeName hostIP,
      Unstructured.convertObjectToPodInfo (mkPodObj name ns none nodeName hostIP) =
        Unstructured.ConvOutcome.ok ⟨name, ns, "", nodeName, hostIP⟩) ∧
    (∀ pods nodeIPMap,
      Typed.joinPodNodeInfo pods nodeIPMap =
        Typed.joinPodNodeInfo (pods.filter (fun pod => !(pod.status.podIP == "")))
          nodeIPMap) := by
  constructor
  · intro name ns nodeName hostIP; rfl
  · intro pods nodeIPMap
    induction pods with
    | nil => rfl
    | cons pod rest ih =>
      simp only [Typed.joinPodNodeInfo] at ih ⊢
      cases hp : pod.status.podIP == "" with
      | true =>
        have hp2 : pod.status.podIP = "" := by simpa using hp
        simp [List.filterMap_cons, List.filter_cons, hp2]
        simpa using ih
      | false =>
        have hp2 : ¬ pod.status.podIP = "" := by simpa using hp
        simp [List.filterMap_cons, List.filter_cons, hp2]
        simpa using ih

/-- Witness for the amended C4 at concrete field values. -/
theorem emptyIP_handling_by_variant_witness :
    Unstructured.convertObjectToPodInfo (mkPodObj "pending-pod" "default" none "node1" "10.0.0.9") =
      Unstructured.ConvOutcome.ok ⟨"pending-pod", "default", "", "node1", "10.0.0.9"⟩ ∧
    Typed.joinPodNodeInfo [pendingTypedPod, app1Pod] (Typed.buildNodeIPMap [h1node]) =
      Typed.joinPodNodeInfo
        ([pendingTypedPod, app1Pod].filter (fun pod => !(pod.status.podIP == "")))
        (Typed.buildNodeIPMap [h1node]) :=
  ⟨emptyIP_handling_by_variant.1 "pending-pod" "default" "node1" "10.0.0.9",
    emptyIP_handling_by_variant.2 [pendingTypedPod, app1Pod] (Typed.buildNodeIPMap [h1node])⟩

/-- Claim C5: the node-IP index maps a host name to the first
`"InternalIP"`-typed address of a node of that name (one chosen address
per node, by address-list order); every joined output record's host IP is
exactly the index entry for its bound host name (the zero value `""` when
there is none); and on the two-host example `h1 → 10.0.0.1`,
`h2 → 10.0.0.2`, a pod bound to `h1` is joined with host IP `10.0.0.1`. -/
theorem nodeIPMap_join_correct :
    (∀ pods nodes info,
      info ∈ Typed.joinPodNodeInfo pods (Typed.buildNodeIPMap nodes) →
        info.NodeIP =
          (List.lookup info.NodeName (Typed.buildNodeIPMap nodes)).getD "") ∧
    (∀ nodes name ip,
      List.lookup name (Typed.buildNodeIPMap nodes) = some ip →
        ∃ node, node ∈ nodes ∧ node.name = name ∧
          Typed.firstInternalIP node.status.addresses = some ip) ∧
    Typed.joinPodNodeInfo [app1Pod] (Typed.buildNodeIPMap [h1node, h2node]) =
      [⟨"app-1", "10.244.0.7", "h1", "10.0.0.1"⟩] := by
  refine ⟨?_, ?_, rfl⟩
  · intro pods nodes info h
    unfold Typed.joinPodNodeInfo at h
    rw [List.mem_filterMap] at h
    obtain ⟨pod, hpod, hf⟩ := h
    by_cases hip : (pod.status.podIP == "") = true
    · rw [if_pos hip] at hf
      exact absurd hf (by simp)
    · rw [if_neg hip] at hf
      injection hf with hf
      subst hf
      rfl
  · intro nodes name ip h
    rcases Typed.lookup_nodeIPStep_fold nodes [] name ip h with hex | hacc
    · exact hex
    · exact absurd hacc (by simp)

/-- Witness for C5: the joined record of the concrete example indeed
carries the index entry of its host, and the index lookup for `h1` traces
back to `h1node`the first internal address. -/
theorem nodeIPMap_join_correct_witness :
    (⟨"app-1", "10.244.0.7", "h1", "10.0.0.1"⟩ : Typed.PodInfo).NodeIP =
      (List.lookup (⟨"app-1", "10.244.0.7", "h1", "10.0.0.1"⟩ : Typed.PodInfo).NodeName
        (Typed.buildNodeIPMap [h1node, h2node])).getD "" ∧
    ∃ node, node ∈ [h1node, h2node] ∧ node.name = "h1" ∧
      Typed.firstInternalIP node.status.addresses = some "10.0.0.1" :=
  ⟨nodeIPMap_join_correct.1 [app1Pod] [h1node, h2node] _ (by decide),
    nodeIPMap_join_correct.2.1 [h1node, h2node] "h1" "10.0.0.1" (by decide)⟩

/-- Claim C6: a failing pod listing or node listing makes the whole query
fail with a single wrapped error naming the failing step; the two
messages are distinct for all underlying causes; the command then prints
no table and exits non-zero (both in the typed-client variant, whose
`Run` prints the error and calls `os.Exit(1)`, and in the unstructured
variant, whose enumeration failure is wrapped as
`failed to retrieve pods`). -/
theorem listing_failure_wrapped_error :
    (∀ e nodesResult,
      Typed.getPodAndNodeInfo (Except.error e) nodesResult =
        Except.error ("error listing pods: " ++ e)) ∧
    (∀ pods e,
      Typed.getPodAndNodeInfo (Except.ok pods) (Except.error e) =
        Except.error ("error listing nodes: " ++ e)) ∧
    (∀ e1 e2, ("error listing pods: " ++ e1 : String) ≠ "error listing nodes: " ++ e2) ∧
    (∀ e,
      Typed.runIp (Except.error e) =
        Typed.RunOutcome.errorExit ("Error connecting to Kubernetes cluster: " ++ e) ∧
      (Typed.runIp (Except.error e)).exitCode = 1 ∧
      ∀ infos, Typed.runIp (Except.error e) ≠ Typed.RunOutcome.printed infos) ∧
    (∀ searchTerm rest e,
      Unstructured.runFunc (searchTerm :: rest) (Except.error e) =
        Unstructured.RunOutcome.listError ("failed to retrieve pods: " ++ e) ∧
      (Unstructured.runFunc (searchTerm :: rest) (Except.error e)).exitCode = 1) := by
  refine ⟨fun e nodesResult => rfl, fun pods e => rfl, ?_, ?_, fun searchTerm rest e => ⟨rfl, rfl⟩⟩
  · intro e1 e2 h
    have h2 : "error listing pods: ".data ++ e1.data =
        "error listing nodes: ".data ++ e2.data := congrArg String.data h
    have h3 := congrArg (List.take 15) h2
    rw [List.take_append_of_le_length (by decide),
      List.take_append_of_le_length (by decide)] at h3
    exact absurd h3 (by decide)
  · intro e
    exact ⟨rfl, rfl, fun infos hcontra => Typed.RunOutcome.noConfusion hcontra⟩

/-- Witness for C6 at concrete failing listings. -/
theorem listing_failure_wrapped_error_witness :
    Typed.getPodAndNodeInfo (Except.error "connection refused") (Except.ok [h1node]) =
      Except.error ("error listing pods: " ++ "connection refused") ∧
    Typed.getPodAndNodeInfo (Except.ok [app1Pod]) (Except.error "connection refused") =
      Except.error ("error listing nodes: " ++ "connection refused") ∧
    (Typed.runIp (Except.error "error listing pods: connection refused")).exitCode = 1 :=
  ⟨listing_failure_wrapped_error.1 "connection refused" (Except.ok [h1node]),
    listing_failure_wrapped_error.2.1 [app1Pod] "connection refused",
    (listing_failure_wrapped_error.2.2.2.1 "error listing pods: connection refused").2.1⟩

/-- Claim C7: with a non-empty `-n, --namespace` flag the enumeration
scope is that single namespace, and an object is visited iff the cluster
holds it under exactly that namespace; with the flag omitted (empty
string) the scope is all namespaces, and an object is visited iff the
cluster holds it under some namespace. -/
theorem namespace_scope_selection :
    (∀ flag cluster obj, flag ≠ "" →
      (obj ∈ Unstructured.enumeratePods cluster (Unstructured.selectScope flag) ↔
        (flag, obj) ∈ cluster)) ∧
    (∀ cluster obj,
      obj ∈ Unstructured.enumeratePods cluster (Unstructured.selectScope "") ↔
        ∃ ns, (ns, obj) ∈ cluster) := by
  constructor
  · intro flag cluster obj hflag
    rw [show Unstructured.selectScope flag = Unstructured.Scope.oneNamespace flag from
      if_pos hflag]
    simp only [Unstructured.enumeratePods, List.mem_map, List.mem_filter]
    constructor
    · rintro ⟨e, ⟨he, heq⟩, rfl⟩
      have h1 : e.1 = flag := by simpa using heq
      rw [← h1, Prod.mk.eta]
      exact he
    · intro h
      exact ⟨(flag, obj), ⟨h, by simp⟩, rfl⟩
  · intro cluster obj
    rw [show Unstructured.selectScope "" = Unstructured.Scope.allNamespaces from rfl]
    simp only [Unstructured.enumeratePods, List.mem_map]
    constructor
    · rintro ⟨e, he, rfl⟩
      exact ⟨e.1, by rwa [Prod.mk.eta]⟩
    · rintro ⟨ns, h⟩
      exact ⟨(ns, obj), h, rfl⟩

/-- Witness for C7 on a one-pod cluster and the flag `dev`. -/
theorem namespace_scope_selection_witness :
    (nginxObj ∈ Unstructured.enumeratePods [("dev", nginxObj)]
        (Unstructured.selectScope "dev") ↔
      ("dev", nginxObj) ∈ [("dev", nginxObj)]) ∧
    (nginxObj ∈ Unstructured.enumeratePods [("dev", nginxObj)]
        (Unstructured.selectScope "") ↔
      ∃ ns, (ns, nginxObj) ∈ [("dev", nginxObj)]) :=
  ⟨namespace_scope_selection.1 "dev" [("dev", nginxObj)] nginxObj (by decide),
    namespace_scope_selection.2 [("dev", nginxObj)] nginxObj⟩

/-- Claim C8: an object that entirely lacks its `spec` or `status` section
is skipped silently: inserting such an object anywhere in the enumerated
list leaves the result of the visit loop unchanged (so the remaining
well-formed records are still all returned, and one bad record never
aborts the query). -/
theorem malformed_record_skipped (pre post : List Unstructured.UnstructuredObj)
    (searchTerm : String) (bad : Unstructured.UnstructuredObj)
    (h : Unstructured.lacksSpecOrStatus bad = true) :
    Unstructured.visitPods (pre ++ bad :: post) searchTerm =
      Unstructured.visitPods (pre ++ post) searchTerm := by
  induction pre with
  | nil =>
    show Unstructured.visitPods (bad :: post) searchTerm = _
    simp [Unstructured.visitPods, Unstructured.convert_of_lacks h]
  | cons o pre ih =>
    simp only [List.cons_append, Unstructured.visitPods, List.append_eq]
    rw [ih]

/-- Witness for C8: a status-less object inserted in front of a
well-formed one changes nothing. -/
theorem malformed_record_skipped_witness :
    Unstructured.visitPods ([] ++ noStatusObj :: [nginxObj]) "nginx" =
      Unstructured.visitPods ([] ++ [nginxObj]) "nginx" :=
  malformed_record_skipped [] [nginxObj] "nginx" noStatusObj (by decide)

/-- Claim C9: when no converted record matches the pattern, the command
emits the single `No pods found matching the pattern: <pattern>` message
(naming the pattern) and exits with code 0 - the zero-match case is not
an error. -/
theorem no_matches_zero_exit (searchTerm : String) (rest : List String)
    (objs : List Unstructured.UnstructuredObj)
    (h : Unstructured.visitPods objs searchTerm = some []) :
    Unstructured.runFunc (searchTerm :: rest) (Except.ok objs) =
      Unstructured.RunOutcome.noMatches
        ("No pods found matching the pattern: " ++ searchTerm) ∧
    (Unstructured.runFunc (searchTerm :: rest) (Except.ok objs)).exitCode = 0 := by
  have heq : Unstructured.runFunc (searchTerm :: rest) (Except.ok objs) =
      Unstructured.RunOutcome.noMatches
        ("No pods found matching the pattern: " ++ searchTerm) := by
    simp [Unstructured.runFunc, h]
  exact ⟨heq, by rw [heq]; rfl⟩

/-- Witness for C9 on an empty enumeration and the pattern `nginx`. -/
theorem no_matches_zero_exit_witness :
    Unstructured.runFunc ["nginx"] (Except.ok []) =
      Unstructured.RunOutcome.noMatches
        ("No pods found matching the pattern: " ++ "nginx") ∧
    (Unstructured.runFunc ["nginx"] (Except.ok [])).exitCode = 0 :=
  no_matches_zero_exit "nginx" [] [] rfl

/-- Claim C10: the empty string as search pattern passes the argument
check (which only detects a missing positional argument: the outcome is
never a usage error when an argument, even empty, is present), and the
substring filter then retains every successfully converted record,
because every string contains the empty string. -/
theorem emptyPattern_matches_all :
    (∀ listing, (Unstructured.runFunc [""] listing).isUsageError = false) ∧
    (∀ objs,
      (∀ o ∈ objs,
        Unstructured.convertObjectToPodInfo o ≠ Unstructured.ConvOutcome.panicked) →
      Unstructured.visitPods objs "" = some (objs.filterMap Unstructured.convOk)) := by
  constructor
  · intro listing
    exact Unstructured.runFunc_arg_not_usage "" [] listing
  · intro objs h
    rw [Unstructured.visitPods_eq_filter objs "" h]
    congr 1
    apply List.filter_eq_self.mpr
    intro info _
    exact Unstructured.matchesSearch_empty info

/-- Witness for C10: with the empty pattern, both convertible objects are
retained. -/
theorem emptyPattern_matches_all_witness :
    (Unstructured.runFunc [""] (Except.error "boom2")).isUsageError = false ∧
    Unstructured.visitPods [nginxObj, redisObj] "" =
      some ([nginxObj, redisObj].filterMap Unstructured.convOk) :=
  ⟨emptyPattern_matches_all.1 (Except.error "boom2"),
    emptyPattern_matches_all.2 [nginxObj, redisObj] (by decide)⟩
